import Mathlib

/-!
# Verification of the Aduro stove coordinator core

Shallow embedding of the state-coordination core of the Aduro
home-assistant integration (`custom_components/aduro/coordinator.py`):
the command/confirmation state machine (`_process_state_changes`,
`_check_mode_change_progress`, `async_set_heatlevel`,
`async_set_temperature`), consumption accounting
(`_calculate_pellet_levels`, `_update_learning_consumption_tracker`),
the rate-learning store (`_record_heating_observation`,
`_record_startup_observation`, `_get_heating_rate`) and the head of the
depletion predictor (`predict_pellet_depletion`).

Python floats are modelled as rationals, `datetime` timestamps as
rational numbers, Python `None`-able attributes as `Option`, and the
`data` dict assembled each poll cycle as a structure of optional
sections.  Network sends are modelled by boolean outcome parameters.
-/

namespace Aduro

/-! ## Data model

`data["operating"]` is built by `_async_get_operating_data`, which always
sets `state`, `substate`, `heatlevel`, `boiler_temp`, `boiler_ref` and
`smoke_temp` when the section is present, so those fields are not
optional inside the section. Likewise `data["status"]` always carries
`operation_mode` and `data["consumption"]` always carries `day`. -/

structure OperatingData where
  state : String
  substate : String
  heatlevel : Int
  boilerTemp : ℚ
  boilerRef : ℚ
  smokeTemp : ℚ
  deriving DecidableEq, Repr

structure StatusData where
  operationMode : Int
  deriving DecidableEq, Repr

/-- The `data["pellets"]` section produced by `_calculate_pellet_levels`. -/
structure PelletsInfo where
  capacity : ℚ
  consumed : ℚ
  consumedTotal : ℚ
  amount : ℚ
  percentage : ℚ
  deriving DecidableEq, Repr

/-- The per-cycle `data` dict, restricted to the sections the modelled
functions read.  A `none` section models a missing dict key. -/
structure PollData where
  operating : Option OperatingData
  status : Option StatusData
  consumptionDay : Option ℚ
  pellets : Option PelletsInfo
  deriving DecidableEq, Repr

/-- Coordinator instance attributes touched by the modelled methods,
with the initial values of `AduroCoordinator.__init__`. -/
structure CoordState where
  changeInProgress : Bool := false
  toggleHeatTarget : Bool := false
  modeChangeStarted : Option ℚ := none
  resendAttempt : Nat := 0
  targetHeatlevel : Option Int := none
  targetTemperature : Option ℚ := none
  targetOperationMode : Option Int := none
  prevState : Option String := none
  prevHeatlevel : Option Int := none
  prevTemperature : Option ℚ := none
  prevOperationMode : Option Int := none
  wasInWoodMode : Bool := false
  autoResumeSent : Bool := false
  preWoodModeHeatlevel : Option Int := none
  preWoodModeTemperature : Option ℚ := none
  preWoodModeOperationMode : Option Int := none
  timerStartup1 : Option ℚ := none
  timerStartup2 : Option ℚ := none
  timerShutdown : Option ℚ := none
  deriving DecidableEq, Repr

/-- The fresh coordinator state produced by `__init__`. -/
def initialCoordState : CoordState := {}

/-- Modelled from the spec: the constants imported from `const.py` (a
file of this repository that is not under `src/`): the shutdown and
startup state-code sets and the two confirmation timeouts ("a
command-response timeout" and "the larger total change timeout").  They
are kept abstract as a configuration record, together with the
user-preference flag `_auto_resume_after_wood`; every theorem below
quantifies over them. -/
structure Config where
  shutdownStates : List String
  startupStates : List String
  cmdTimeout : ℚ
  totalTimeout : ℚ
  autoResumeAfterWood : Bool := false

/-- `self._max_resend_attempts = 3` (coordinator.py line 89). -/
def maxResendAttempts : Nat := 3

/-- Detection flags written into the `data` dict by
`_process_state_changes`; a missing key is `false`/`none`. -/
structure PollFlags where
  autoStopDetected : Bool := false
  autoStartDetected : Bool := false
  autoResumeCommanded : Bool := false
  appChangeDetected : Option Bool := none
  deriving DecidableEq, Repr

/-! ## Command/confirmation state machine -/

/-- The pending-change clearing performed identically at the
external-stop site (lines 530-539), the change-complete site (lines
669-677) and the final-timeout site (lines 703-710). -/
def clearPending (s : CoordState) : CoordState :=
  { s with changeInProgress := false
           toggleHeatTarget := false
           modeChangeStarted := none
           resendAttempt := 0
           targetHeatlevel := none
           targetTemperature := none
           targetOperationMode := none }

/-- `if target is not None: if current != target: change_complete = False`
(one clause of the completion check of `_check_mode_change_progress`). -/
def matchesTarget {α : Type} (cur : α) : Option α → Prop
  | none => True
  | some t => cur = t

instance {α : Type} [DecidableEq α] (cur : α) (tgt : Option α) :
    Decidable (matchesTarget cur tgt) := by
  cases tgt with
  | none => exact isTrue trivial
  | some t => exact inferInstanceAs (Decidable (cur = t))

/-- Wood-mode transition tracking, the first stage of
`_process_state_changes` (coordinator.py lines 438-479): save the
pellet-mode settings when entering wood mode (state `"9"`), possibly
auto-resume while in wood mode, and clear the tracking flags when
leaving it.  `eff` is the nested
`await self._async_resume_pellet_operation()` call (it issues stove
commands and may mutate the coordinator state), kept abstract. -/
def woodModeTracking (cfg : Config) (eff : CoordState → CoordState × Bool)
    (op : OperatingData) (st : StatusData) (s : CoordState) :
    CoordState × PollFlags :=
  let isWood := op.state = "9"
  let sf1 : CoordState × PollFlags :=
    if isWood ∧ ¬ s.wasInWoodMode = true then
      ({ s with preWoodModeOperationMode := some st.operationMode
                preWoodModeHeatlevel := some op.heatlevel
                preWoodModeTemperature := some op.boilerRef
                wasInWoodMode := true
                autoResumeSent := false }, {})
    else if isWood ∧ s.wasInWoodMode = true then
      if cfg.autoResumeAfterWood = true ∧ s.preWoodModeOperationMode = some 0 ∧
          op.smokeTemp ≤ 110 ∧ ¬ s.autoResumeSent = true then
        let r := eff s
        if r.2 = true then
          ({ r.1 with autoResumeSent := true }, { autoResumeCommanded := true })
        else (r.1, {})
      else (s, {})
    else (s, {})
  if ¬ isWood ∧ sf1.1.wasInWoodMode = true then
    ({ sf1.1 with wasInWoodMode := false, autoResumeSent := false }, sf1.2)
  else sf1

/-- The startup/shutdown timer bookkeeping of `_process_state_changes`
(coordinator.py lines 481-497). -/
def startupTimers (now : ℚ) (op : OperatingData) (s : CoordState) : CoordState :=
  let s3 := if op.state = "2" ∧ s.prevState ≠ some "2" then
      { s with timerStartup1 := some now } else s
  let s4 := if op.state = "4" ∧ s3.prevState ≠ some "4" then
      { s3 with timerStartup2 := some now } else s3
  let s5 := if op.state = "14" ∧ op.substate = "0" ∧
      (s4.prevState = some "5" ∨ s4.prevState = some "32") then
      { s4 with timerShutdown := some now } else s4
  if op.state ≠ "14" ∧ s5.timerShutdown ≠ none then
    { s5 with timerShutdown := none } else s5

/-- `_process_state_changes` (coordinator.py lines 417-624).

* `eff` stands for the nested call
  `await self._async_resume_pellet_operation()` made from the wood-mode
  auto-resume branch: it may mutate the coordinator state (it issues
  commands through `async_start_stove` / `async_set_heatlevel` /
  `async_set_temperature`) and reports success; it is kept abstract and
  universally quantified.
* `now` is `datetime.now()`.
* The result is `none` when the method raises: `data["status"]` is read
  unguarded at line 425, so a present `operating` section with a missing
  `status` section raises `KeyError` (the poll fails as a whole). -/
def processStateChanges (cfg : Config) (eff : CoordState → CoordState × Bool)
    (now : ℚ) (d : PollData) (s : CoordState) : Option (CoordState × PollFlags) :=
  match d.operating with
  | none => some (s, {})
  | some op =>
    match d.status with
    | none => none
    | some st =>
      -- Wood-mode tracking (lines 438-479) and timers (lines 481-497)
      let sf1 := woodModeTracking cfg eff op st s
      let f1 := sf1.2
      let s6 := startupTimers now op sf1.1
      -- First-run initialization (lines 499-508)
      if s6.prevHeatlevel = none then
        some ({ s6 with prevHeatlevel := some op.heatlevel
                        prevTemperature := some op.boilerRef
                        prevOperationMode := some st.operationMode
                        prevState := some op.state },
              { f1 with appChangeDetected := some false })
      -- External stop command (lines 510-551)
      else if s6.prevState ≠ none ∧ op.state ∈ cfg.shutdownStates ∧
          ¬ ∃ p ∈ cfg.shutdownStates, s6.prevState = some p then
        some ({ clearPending s6 with
                  prevState := some op.state
                  prevHeatlevel := some op.heatlevel
                  prevTemperature := some op.boilerRef
                  prevOperationMode := some st.operationMode },
              { f1 with autoStopDetected := true, appChangeDetected := some false })
      else
        -- External change detection (lines 553-590)
        let det1 := ¬ s6.changeInProgress = true ∧ st.operationMode = 0 ∧
            s6.prevHeatlevel ≠ none ∧ some op.heatlevel ≠ s6.prevHeatlevel
        let s7 := if det1 then { s6 with targetHeatlevel := some op.heatlevel } else s6
        let det2 := ¬ s6.changeInProgress = true ∧ st.operationMode = 1 ∧
            s6.prevTemperature ≠ none ∧ some op.boilerRef ≠ s6.prevTemperature
        let s8 := if det2 then { s7 with targetTemperature := some op.boilerRef } else s7
        let det3 := ¬ s6.changeInProgress = true ∧ s6.prevOperationMode ≠ none ∧
            some st.operationMode ≠ s6.prevOperationMode
        let s9 := if det3 then { s8 with targetOperationMode := some st.operationMode } else s8
        let appChange := det1 ∨ det2 ∨ det3
        -- Auto-start detection (lines 592-597)
        let autoStart := s6.prevState ≠ none ∧ op.state ∈ cfg.startupStates ∧
            ¬ ∃ p ∈ cfg.startupStates, s6.prevState = some p
        -- Target updates on external change (lines 599-615)
        let s10 :=
          if appChange then
            let sA :=
              if st.operationMode = 0 then
                { s9 with targetHeatlevel := some op.heatlevel, targetOperationMode := some 0 }
              else if st.operationMode = 1 then
                { s9 with targetTemperature := some op.boilerRef, targetOperationMode := some 1 }
              else s9
            if sA.changeInProgress = true then
              { sA with changeInProgress := false
                        toggleHeatTarget := false
                        modeChangeStarted := none
                        resendAttempt := 0 }
            else sA
          else s9
        -- Update previous values and the detection flag (lines 617-624)
        some ({ s10 with prevState := some op.state
                         prevHeatlevel := some op.heatlevel
                         prevTemperature := some op.boilerRef
                         prevOperationMode := some st.operationMode },
              { f1 with autoStartDetected := autoStart, appChangeDetected := some appChange })

/-- `_check_mode_change_progress` (coordinator.py lines 626-710).

The boolean result records whether `_resend_pending_commands` was
invoked on this poll.  `now` is `datetime.now()`; the restamp after a
resend (line 698) is modelled with the same `now`. -/
def checkModeChangeProgress (cfg : Config) (now : ℚ) (d : PollData)
    (s : CoordState) : CoordState × Bool :=
  if ¬ s.changeInProgress = true then (s, false)
  else
    match d.operating, d.status with
    | some op, some st =>
      if matchesTarget op.heatlevel s.targetHeatlevel ∧
          matchesTarget op.boilerRef s.targetTemperature ∧
          matchesTarget st.operationMode s.targetOperationMode then
        (clearPending s, false)
      else
        match s.modeChangeStarted with
        | none => (s, false)
        | some t0 =>
          let elapsed := now - t0
          if elapsed > cfg.cmdTimeout ∧ s.resendAttempt < maxResendAttempts then
            ({ s with resendAttempt := s.resendAttempt + 1
                      modeChangeStarted := some now }, true)
          else if elapsed > cfg.totalTimeout then
            (clearPending s, false)
          else (s, false)
    | _, _ => (s, false)

/-- `async_set_heatlevel` (coordinator.py lines 3333-3374).  The two
underlying sends (`regulation.operation_mode`, then after a settle delay
`regulation.fixed_power`) have their outcomes supplied as `modeOk` and
`valueOk`; the boolean result is the method's return value. -/
def setHeatlevel (now : ℚ) (heatlevel : Int) (modeOk valueOk : Bool)
    (s : CoordState) : CoordState × Bool :=
  if ¬ heatlevel ∈ ([1, 2, 3] : List Int) then (s, false)
  else
    let s1 := { s with targetHeatlevel := some heatlevel
                       targetOperationMode := some 0
                       changeInProgress := true
                       modeChangeStarted := some now
                       resendAttempt := 0 }
    if ¬ modeOk = true then
      ({ s1 with changeInProgress := false
                 targetHeatlevel := none
                 targetOperationMode := none }, false)
    else if ¬ valueOk = true then
      ({ s1 with changeInProgress := false
                 targetHeatlevel := none
                 targetOperationMode := none }, false)
    else (s1, true)

/-- `async_set_temperature` (coordinator.py lines 3376-3412). -/
def setTemperature (now : ℚ) (temperature : ℚ) (modeOk valueOk : Bool)
    (s : CoordState) : CoordState × Bool :=
  let s1 := { s with targetTemperature := some temperature
                     targetOperationMode := some 1
                     changeInProgress := true
                     modeChangeStarted := some now
                     resendAttempt := 0 }
  if ¬ modeOk = true then
    ({ s1 with changeInProgress := false
               targetTemperature := none
               targetOperationMode := none }, false)
  else if ¬ valueOk = true then
    ({ s1 with changeInProgress := false
               targetTemperature := none
               targetOperationMode := none }, false)
  else (s1, true)

/-! ## Consumption accounting -/

/-- The pellet bookkeeping attributes read and written by
`_calculate_pellet_levels`.  `lastConsumptionDayValue = none` models the
attribute `_last_consumption_day_value` not existing yet (the `hasattr`
check at line 806). -/
structure PelletState where
  lastConsumptionDayValue : Option ℚ := none
  pelletsConsumed : ℚ := 0
  pelletsConsumedTotal : ℚ := 0
  pelletCapacity : ℚ := 19/2
  deriving DecidableEq, Repr

/-- `_calculate_pellet_levels` (coordinator.py lines 795-865).  Takes
the `data["consumption"]["day"]` reading (`none` when the consumption
section is missing, in which case the method returns without touching
anything and without writing `data["pellets"]`). -/
def calculatePelletLevels (day : Option ℚ) (p : PelletState) :
    PelletState × Option PelletsInfo :=
  match day with
  | none => (p, none)
  | some currentDay =>
    -- Initialize on first run (the incremental logic then sees delta 0)
    let p0 := match p.lastConsumptionDayValue with
      | none => { p with lastConsumptionDayValue := some currentDay }
      | some _ => p
    let lastValue := p0.lastConsumptionDayValue.getD currentDay
    let consumptionChange := currentDay - lastValue
    let p1 :=
      if consumptionChange < 0 then
        -- Midnight reset: re-baseline, don't change the counters
        { p0 with lastConsumptionDayValue := some currentDay }
      else if consumptionChange > 0 then
        { p0 with pelletsConsumed := p0.pelletsConsumed + consumptionChange
                  pelletsConsumedTotal := p0.pelletsConsumedTotal + consumptionChange
                  lastConsumptionDayValue := some currentDay }
      else p0
    let amountRemaining := max 0 (p1.pelletCapacity - p1.pelletsConsumed)
    let percentageRemaining :=
      if p1.pelletCapacity > 0 then amountRemaining / p1.pelletCapacity * 100 else 0
    (p1, some { capacity := p1.pelletCapacity
                consumed := p1.pelletsConsumed
                consumedTotal := p1.pelletsConsumedTotal
                amount := amountRemaining
                percentage := percentageRemaining })

/-- The learning-consumption accumulator attributes used by
`_update_learning_consumption_tracker`. -/
structure LearningConsumptionState where
  lastConsumptionDayForLearning : Option ℚ := none
  learningConsumptionTotal : ℚ := 0
  deriving DecidableEq, Repr

/-- `_update_learning_consumption_tracker` (coordinator.py lines
2251-2283).  On a midnight reset (negative increment) the new
`consumption_day` value itself is used as the increment. -/
def updateLearningConsumptionTracker (day : Option ℚ)
    (s : LearningConsumptionState) : LearningConsumptionState :=
  match day with
  | none => s
  | some currentDay =>
    match s.lastConsumptionDayForLearning with
    | none => { s with lastConsumptionDayForLearning := some currentDay }
    | some lastDay =>
      let increment0 := currentDay - lastDay
      let increment := if increment0 < 0 then currentDay else increment0
      let total :=
        if increment > 0 then s.learningConsumptionTotal + increment
        else s.learningConsumptionTotal
      { lastConsumptionDayForLearning := some currentDay
        learningConsumptionTotal := total }

/-! ## Rate learning store -/

/-- One entry of `self._learning_data["heating_observations"]`. -/
structure HeatingObs where
  count : Nat := 0
  totalHeatingRate : ℚ := 0
  avgHeatingRate : ℚ := 0
  deriving DecidableEq, Repr

/-- One entry of `self._learning_data["consumption_observations"]`. -/
structure ConsumptionObs where
  count : Nat := 0
  totalConsumptionRate : ℚ := 0
  avgConsumptionRate : ℚ := 0
  deriving DecidableEq, Repr

/-- The aggregate `self._learning_data["startup_observations"]`. -/
structure StartupObs where
  count : Nat := 0
  totalConsumption : ℚ := 0
  avgConsumption : ℚ := 0
  avgDuration : ℚ := 0
  deriving DecidableEq, Repr

/-- Key of a heating observation:
`(heatlevel, temp_delta_bucket, outdoor_bucket)` with a nullable
outdoor bucket. -/
abbrev HeatingKey := Int × ℚ × Option Int

/-- The heating-observation dict, modelled as an association list. -/
abbrev HeatingTable := List (HeatingKey × HeatingObs)

/-- Dict lookup (`dict.get(key)`). -/
def lookupAssoc {α β : Type} [DecidableEq α] (k : α) : List (α × β) → Option β
  | [] => none
  | (k', v) :: rest => if k' = k then some v else lookupAssoc k rest

/-- Python `round` (banker's rounding: ties go to the even integer). -/
def pyRound (q : ℚ) : Int :=
  let f := ⌊q⌋
  let frac := q - f
  if frac < 1/2 then f
  else if frac > 1/2 then f + 1
  else if f % 2 = 0 then f else f + 1

/-- `_get_temp_delta_bucket` (line 1655): `round(temp_delta * 2) / 2`. -/
def tempDeltaBucket (tempDelta : ℚ) : ℚ := (pyRound (tempDelta * 2) : ℚ) / 2

/-- `_get_outdoor_temp_bucket` (line 1659):
`int(math.floor(outdoor_temp / 2) * 2)`. -/
def outdoorTempBucket (outdoorTemp : ℚ) : Int := ⌊outdoorTemp / 2⌋ * 2

/-- The bucket update of `_record_heating_observation` on one heating
observation (lines 1808-1823): add to the running total, recompute the
average as `total / (count + 1)`, then increment the count. -/
def recordHeatingRate (x : ℚ) (o : HeatingObs) : HeatingObs :=
  let total := o.totalHeatingRate + x
  { count := o.count + 1
    totalHeatingRate := total
    avgHeatingRate := total / (o.count + 1) }

/-- The consumption-rate update of `_record_heating_observation`
(lines 1831-1844). -/
def recordConsumptionRate (x : ℚ) (o : ConsumptionObs) : ConsumptionObs :=
  let total := o.totalConsumptionRate + x
  { count := o.count + 1
    totalConsumptionRate := total
    avgConsumptionRate := total / (o.count + 1) }

/-- `_record_startup_observation` (coordinator.py lines 1899-1925).
`avg_consumption` is maintained through a running total,
`avg_duration` through the incremental-mean formula directly. -/
def recordStartupObservation (durationSeconds consumptionKg : ℚ)
    (s : StartupObs) : StartupObs :=
  { count := s.count + 1
    totalConsumption := s.totalConsumption + consumptionKg
    avgConsumption := (s.totalConsumption + consumptionKg) / (s.count + 1)
    avgDuration := (s.avgDuration * s.count + durationSeconds) / (s.count + 1) }

/-- The fixed default heating rates of `_get_heating_rate`
(`{1: 0.3, 2: 0.6, 3: 1.0}` with `.get(heatlevel, 0.6)`). -/
def defaultHeatingRate (heatlevel : Int) : ℚ :=
  if heatlevel = 1 then 3/10
  else if heatlevel = 2 then 6/10
  else if heatlevel = 3 then 1
  else 6/10

/-- Entries sharing the given heat level and temp-delta bucket with
`count >= 1` (the first fallback's list comprehension). -/
def matchesByTempDelta (tbl : HeatingTable) (hl : Int) (tdb : ℚ) : List HeatingObs :=
  (tbl.filter (fun e => e.1.1 = hl ∧ e.1.2.1 = tdb ∧ 1 ≤ e.2.count)).map (·.2)

/-- Entries sharing the given heat level and (non-null) outdoor bucket
with `count >= 1` (the second fallback's list comprehension). -/
def matchesByOutdoor (tbl : HeatingTable) (hl : Int) (ob : Int) : List HeatingObs :=
  (tbl.filter (fun e => e.1.1 = hl ∧ e.1.2.2 = some ob ∧ 1 ≤ e.2.count)).map (·.2)

/-- Entries sharing the given heat level with `count >= 1` (the last
fallback's list comprehension). -/
def matchesByHeatlevel (tbl : HeatingTable) (hl : Int) : List HeatingObs :=
  (tbl.filter (fun e => e.1.1 = hl ∧ 1 ≤ e.2.count)).map (·.2)

/-- `sum(o["avg_heating_rate"] for o in matches) / len(matches)`. -/
def averageHeatingRate (l : List HeatingObs) : ℚ :=
  (l.map (·.avgHeatingRate)).sum / l.length

/-- `_get_heating_rate` (coordinator.py lines 2285-2340).  Note that
both intermediate fallbacks are guarded by `if outdoor_bucket is not
None`, so with an absent outdoor temperature the query goes straight
from the exact key to the heatlevel-wide average. -/
def getHeatingRate (tbl : HeatingTable) (heatlevel : Int) (tempDelta : ℚ)
    (outdoorTemp : Option ℚ) : ℚ :=
  let tdb := tempDeltaBucket tempDelta
  let ob := outdoorTemp.map outdoorTempBucket
  let fallbacks :=
    let step2 :=
      let step3 :=
        let step4 :=
          let ms := matchesByHeatlevel tbl heatlevel
          if ms ≠ [] then averageHeatingRate ms else defaultHeatingRate heatlevel
        match ob with
        | some obv =>
          let ms := matchesByOutdoor tbl heatlevel obv
          if ms ≠ [] then averageHeatingRate ms else step4
        | none => step4
      match ob with
      | some _ =>
        let ms := matchesByTempDelta tbl heatlevel tdb
        if ms ≠ [] then averageHeatingRate ms else step3
      | none => step3
    step2
  match lookupAssoc (heatlevel, tdb, ob) tbl with
  | some o => if 1 ≤ o.count then o.avgHeatingRate else fallbacks
  | none => fallbacks

/-- Modelled from the spec: the query ladder exactly as §4.4 and the
claim word it — "try exact key; else average all entries sharing
(heatlevel, temp_delta_bucket); else average all sharing (heatlevel,
outdoor_bucket); else average all sharing heatlevel only; else a fixed
per-heatlevel default" — with no guard on the presence of the outdoor
temperature.  Used only to compare the source's `_get_heating_rate`
against the specified behaviour. -/
def getHeatingRateSpecLadder (tbl : HeatingTable) (heatlevel : Int)
    (tempDelta : ℚ) (outdoorTemp : Option ℚ) : ℚ :=
  let tdb := tempDeltaBucket tempDelta
  let ob := outdoorTemp.map outdoorTempBucket
  match lookupAssoc (heatlevel, tdb, ob) tbl with
  | some o =>
    if 1 ≤ o.count then o.avgHeatingRate
    else getHeatingRateSpecFallback tbl heatlevel tdb ob
  | none => getHeatingRateSpecFallback tbl heatlevel tdb ob
where
  /-- The fallback chain of the specified ladder. -/
  getHeatingRateSpecFallback (tbl : HeatingTable) (heatlevel : Int)
      (tdb : ℚ) (ob : Option Int) : ℚ :=
    let ms1 := matchesByTempDelta tbl heatlevel tdb
    if ms1 ≠ [] then averageHeatingRate ms1
    else
      let ms2 := (tbl.filter
        (fun e => e.1.1 = heatlevel ∧ e.1.2.2 = ob ∧ 1 ≤ e.2.count)).map (·.2)
      if ms2 ≠ [] then averageHeatingRate ms2
      else
        let ms3 := matchesByHeatlevel tbl heatlevel
        if ms3 ≠ [] then averageHeatingRate ms3
        else defaultHeatingRate heatlevel

/-! ## Depletion predictor (entry guards) -/

/-- Outcome of `predict_pellet_depletion`, as far as the early guards
decide it.  `continues` stands for the rest of the method (the
heat-level closed form and the temperature-mode simulation), which no
claim constrains; its parameter records `is_running`.  `empty` carries
the returned `time_remaining_seconds` (the literal `0`) and
`is_running` (which selects `prediction_mode`). -/
inductive PredictOutcome where
  | woodMode
  | empty (timeRemainingSeconds : ℚ) (isRunning : Bool)
  | insufficientData (isRunning : Bool)
  | continues (isRunning : Bool)
  deriving DecidableEq, Repr

/-- `is_running = current_state in ["2", "4", "5", "6", "32"]`
(coordinator.py line 2498). -/
def runningStates : List String := ["2", "4", "5", "6", "32"]

/-- `predict_pellet_depletion` (coordinator.py lines 2479-2532), down
to the branch on the operation mode.  `d = none` models `self.data`
being falsy; the sections model dict keys.  `sufficientData` abstracts
`self._get_learning_status()["sufficient_data"]`, which the early
guards do not depend on. -/
def predictPelletDepletion (sufficientData : Bool) (d : Option PollData) :
    Option PredictOutcome :=
  match d with
  | none => none
  | some data =>
    match data.operating, data.status with
    | some op, some st =>
      if st.operationMode = 2 then some .woodMode
      else
        let isRunning : Bool := if op.state ∈ runningStates then true else false
        let pelletsRemaining := (data.pellets.map PelletsInfo.amount).getD 0
        if pelletsRemaining ≤ 0 then some (.empty 0 isRunning)
        else if ¬ sufficientData = true then some (.insufficientData isRunning)
        else some (.continues isRunning)
    | _, _ => none

/-! ## Stage lemmas for `_process_state_changes` -/

/-- Unless the poll is in wood mode (state `"9"`) with the wood-mode
flag latched, the wood-mode stage never reaches the auto-resume call:
the detection flags stay empty and every command-tracking and
previous-value field is preserved. -/
theorem woodModeTracking_no_resume (cfg : Config)
    (eff : CoordState → CoordState × Bool) (op : OperatingData)
    (st : StatusData) (s : CoordState)
    (h : ¬ (op.state = "9" ∧ s.wasInWoodMode = true)) :
    (woodModeTracking cfg eff op st s).2 = {} ∧
    (woodModeTracking cfg eff op st s).1.changeInProgress = s.changeInProgress ∧
    (woodModeTracking cfg eff op st s).1.toggleHeatTarget = s.toggleHeatTarget ∧
    (woodModeTracking cfg eff op st s).1.modeChangeStarted = s.modeChangeStarted ∧
    (woodModeTracking cfg eff op st s).1.resendAttempt = s.resendAttempt ∧
    (woodModeTracking cfg eff op st s).1.targetHeatlevel = s.targetHeatlevel ∧
    (woodModeTracking cfg eff op st s).1.targetTemperature = s.targetTemperature ∧
    (woodModeTracking cfg eff op st s).1.targetOperationMode = s.targetOperationMode ∧
    (woodModeTracking cfg eff op st s).1.prevState = s.prevState ∧
    (woodModeTracking cfg eff op st s).1.prevHeatlevel = s.prevHeatlevel ∧
    (woodModeTracking cfg eff op st s).1.prevTemperature = s.prevTemperature ∧
    (woodModeTracking cfg eff op st s).1.prevOperationMode = s.prevOperationMode := by
  cases hw : s.wasInWoodMode with
  | false => by_cases h9 : op.state = "9" <;> simp [woodModeTracking, h9, hw]
  | true =>
    have h9 : ¬ op.state = "9" := fun h9 => h ⟨h9, hw⟩
    simp [woodModeTracking, h9, hw]

/-- The timer stage touches only the three timer fields. -/
theorem startupTimers_fields (now : ℚ) (op : OperatingData) (s : CoordState) :
    (startupTimers now op s).changeInProgress = s.changeInProgress ∧
    (startupTimers now op s).toggleHeatTarget = s.toggleHeatTarget ∧
    (startupTimers now op s).modeChangeStarted = s.modeChangeStarted ∧
    (startupTimers now op s).resendAttempt = s.resendAttempt ∧
    (startupTimers now op s).targetHeatlevel = s.targetHeatlevel ∧
    (startupTimers now op s).targetTemperature = s.targetTemperature ∧
    (startupTimers now op s).targetOperationMode = s.targetOperationMode ∧
    (startupTimers now op s).prevState = s.prevState ∧
    (startupTimers now op s).prevHeatlevel = s.prevHeatlevel ∧
    (startupTimers now op s).prevTemperature = s.prevTemperature ∧
    (startupTimers now op s).prevOperationMode = s.prevOperationMode := by
  simp [startupTimers, apply_ite CoordState.changeInProgress,
    apply_ite CoordState.toggleHeatTarget, apply_ite CoordState.modeChangeStarted,
    apply_ite CoordState.resendAttempt, apply_ite CoordState.targetHeatlevel,
    apply_ite CoordState.targetTemperature, apply_ite CoordState.targetOperationMode,
    apply_ite CoordState.prevState, apply_ite CoordState.prevHeatlevel,
    apply_ite CoordState.prevTemperature, apply_ite CoordState.prevOperationMode]

/-! ## Claims -/

/-- C1 (counterexample).  The claim says that on a negative daily-counter
delta, Consumption Accounting adds `daily_counter` itself to
`consumed_since_refill` and `consumed_since_cleaning`.  Concretely:
with baseline `last_seen = 5` kg and `consumed = 5` kg, a reading of
`1` kg (delta `-4`) leaves both counters at `5` kg — they are not
increased to `6` kg as the claim demands. -/
theorem C1_counterexample :
    (calculatePelletLevels (some 1)
        { lastConsumptionDayValue := some 5, pelletsConsumed := 5,
          pelletsConsumedTotal := 5 }).1.pelletsConsumed = 5 ∧
    (calculatePelletLevels (some 1)
        { lastConsumptionDayValue := some 5, pelletsConsumed := 5,
          pelletsConsumedTotal := 5 }).1.pelletsConsumedTotal = 5 ∧
    (5 : ℚ) ≠ 5 + 1 := by
  refine ⟨?_, ?_, by norm_num⟩ <;> norm_num [calculatePelletLevels]

/-- C1 (amended).  On a poll whose daily-counter delta is negative
(midnight rollover), `_calculate_pellet_levels` only re-baselines
`last_seen` to the new `daily_counter` and leaves
`consumed_since_refill` and `consumed_since_cleaning` unchanged; it is
only the learning-consumption tracker
(`_update_learning_consumption_tracker`) that treats the new (positive)
`daily_counter` value itself as the increment, adding it to its own
accumulator and re-baselining. -/
theorem C1_amended :
    (∀ (p : PelletState) (last day : ℚ),
      p.lastConsumptionDayValue = some last → day - last < 0 →
      (calculatePelletLevels (some day) p).1.pelletsConsumed = p.pelletsConsumed ∧
      (calculatePelletLevels (some day) p).1.pelletsConsumedTotal = p.pelletsConsumedTotal ∧
      (calculatePelletLevels (some day) p).1.lastConsumptionDayValue = some day) ∧
    (∀ (s : LearningConsumptionState) (last day : ℚ),
      s.lastConsumptionDayForLearning = some last → day - last < 0 → 0 < day →
      (updateLearningConsumptionTracker (some day) s).learningConsumptionTotal
          = s.learningConsumptionTotal + day ∧
      (updateLearningConsumptionTracker (some day) s).lastConsumptionDayForLearning
          = some day) := by
  constructor
  · intro p last day hlast hneg
    simp only [calculatePelletLevels, hlast, Option.getD_some]
    rw [if_pos hneg]
    simp
  · intro s last day hlast hneg hpos
    simp only [updateLearningConsumptionTracker, hlast]
    rw [if_pos hneg, if_pos hpos]
    simp

/-- C1 (witness for the amended theorem): with baseline `5` and a
post-rollover reading of `1`, the refill/cleaning counters keep their
value `5` while the learning accumulator grows from `5` to `6`. -/
theorem C1_amended_witness :
    (calculatePelletLevels (some 1)
        { lastConsumptionDayValue := some 5, pelletsConsumed := 5,
          pelletsConsumedTotal := 5 }).1.pelletsConsumed = 5 ∧
    (updateLearningConsumptionTracker (some 1)
        { lastConsumptionDayForLearning := some 5,
          learningConsumptionTotal := 5 }).learningConsumptionTotal = 5 + 1 := by
  have hA := C1_amended.1
      { lastConsumptionDayValue := some 5, pelletsConsumed := 5,
        pelletsConsumedTotal := 5 } 5 1 rfl (by norm_num)
  have hB := C1_amended.2
      { lastConsumptionDayForLearning := some 5,
        learningConsumptionTotal := 5 } 5 1 rfl (by norm_num) (by norm_num)
  exact ⟨hA.1, hB.1⟩

/-- C7 (counterexample).  With telemetry present, `operation_mode = 2`
(wood) and zero pellets remaining, `predict_pellet_depletion` returns
the `wood_mode` status, not the `empty`/`0 seconds` result the claim
demands for every mode: the wood-mode special case is checked before
the fuel check. -/
theorem C7_counterexample :
    predictPelletDepletion true (some
      { operating := some { state := "9", substate := "0", heatlevel := 2,
                            boilerTemp := 20, boilerRef := 20, smokeTemp := 100 },
        status := some { operationMode := 2 },
        consumptionDay := none,
        pellets := some { capacity := 19/2, consumed := 10, consumedTotal := 10,
                          amount := 0, percentage := 0 } })
      = some PredictOutcome.woodMode ∧
    some PredictOutcome.woodMode ≠ some (PredictOutcome.empty 0 false) := by
  constructor
  · simp [predictPelletDepletion]
  · simp

/-- C7 (amended).  Whenever the coordinator holds telemetry, the
operation mode is not wood mode (`≠ 2`), and pellets remaining is
`≤ 0`, `predict_pellet_depletion` returns status `empty` with
`time_remaining_seconds = 0`; in wood mode the `wood_mode` status takes
precedence even with no fuel. -/
theorem C7_amended (sufficientData : Bool) (d : PollData)
    (op : OperatingData) (st : StatusData)
    (hop : d.operating = some op) (hst : d.status = some st)
    (hmode : st.operationMode ≠ 2)
    (hfuel : (d.pellets.map PelletsInfo.amount).getD 0 ≤ 0) :
    predictPelletDepletion sufficientData (some d)
      = some (PredictOutcome.empty 0
          (if op.state ∈ runningStates then true else false)) := by
  simp only [predictPelletDepletion, hop, hst]
  rw [if_neg hmode, if_pos hfuel]

/-- C7 (witness): a stove in heat-level mode with an exhausted hopper
reports `empty` with zero seconds remaining. -/
theorem C7_amended_witness :
    predictPelletDepletion true (some
      { operating := some { state := "5", substate := "0", heatlevel := 2,
                            boilerTemp := 20, boilerRef := 20, smokeTemp := 100 },
        status := some { operationMode := 0 },
        consumptionDay := none,
        pellets := some { capacity := 19/2, consumed := 10, consumedTotal := 10,
                          amount := 0, percentage := 0 } })
      = some (PredictOutcome.empty 0 true) := by
  have h := C7_amended true
      { operating := some { state := "5", substate := "0", heatlevel := 2,
                            boilerTemp := 20, boilerRef := 20, smokeTemp := 100 },
        status := some { operationMode := 0 },
        consumptionDay := none,
        pellets := some { capacity := 19/2, consumed := 10, consumedTotal := 10,
                          amount := 0, percentage := 0 } }
      { state := "5", substate := "0", heatlevel := 2,
        boilerTemp := 20, boilerRef := 20, smokeTemp := 100 }
      { operationMode := 0 } rfl rfl (by norm_num) (by norm_num)
  rw [h]
  simp [runningStates]

/-- C9.  Every learning-bucket update produced by
`_record_heating_observation` and `_record_startup_observation`
maintains the stored average as the incremental mean
`avg_{n+1} = (avg_n * n + x) / (n + 1)` (whenever the maintained
`avg = total / count` relationship holds, as it does starting from the
empty bucket), increments `count` by exactly one per observation, and in
particular recording `[10, 20, 30]` into an empty heating bucket yields
average `20` and count `3`. -/
theorem C9_theorem :
    (∀ (o : HeatingObs) (x : ℚ),
      o.avgHeatingRate * o.count = o.totalHeatingRate →
      (recordHeatingRate x o).count = o.count + 1 ∧
      (recordHeatingRate x o).avgHeatingRate
          = (o.avgHeatingRate * o.count + x) / (o.count + 1)) ∧
    (∀ (o : ConsumptionObs) (x : ℚ),
      o.avgConsumptionRate * o.count = o.totalConsumptionRate →
      (recordConsumptionRate x o).count = o.count + 1 ∧
      (recordConsumptionRate x o).avgConsumptionRate
          = (o.avgConsumptionRate * o.count + x) / (o.count + 1)) ∧
    (∀ (s : StartupObs) (dur x : ℚ),
      (recordStartupObservation dur x s).count = s.count + 1 ∧
      (recordStartupObservation dur x s).avgDuration
          = (s.avgDuration * s.count + dur) / (s.count + 1) ∧
      (s.avgConsumption * s.count = s.totalConsumption →
        (recordStartupObservation dur x s).avgConsumption
            = (s.avgConsumption * s.count + x) / (s.count + 1))) ∧
    (([10, 20, 30] : List ℚ).foldl (fun o x => recordHeatingRate x o)
        {}).avgHeatingRate = 20 ∧
    (([10, 20, 30] : List ℚ).foldl (fun o x => recordHeatingRate x o)
        {}).count = 3 := by
  refine ⟨?_, ?_, ?_, ?_, ?_⟩
  · intro o x h
    simp [recordHeatingRate, ← h]
  · intro o x h
    simp [recordConsumptionRate, ← h]
  · intro s dur x
    refine ⟨rfl, rfl, fun h => ?_⟩
    simp [recordStartupObservation, ← h]
  · norm_num [recordHeatingRate, List.foldl]
  · norm_num [recordHeatingRate, List.foldl]

/-- C9 (witness): one concrete incremental update — a heating bucket
holding two observations averaging `4` receives the value `10`, the
count becomes `3` and the average `(4 * 2 + 10) / 3 = 6`. -/
theorem C9_theorem_witness :
    (recordHeatingRate 10
        { count := 2, totalHeatingRate := 8, avgHeatingRate := 4 }).count = 3 ∧
    (recordHeatingRate 10
        { count := 2, totalHeatingRate := 8, avgHeatingRate := 4 }).avgHeatingRate
      = 6 := by
  have h := C9_theorem.1 { count := 2, totalHeatingRate := 8, avgHeatingRate := 4 }
      10 (by norm_num)
  refine ⟨h.1, ?_⟩
  rw [h.2]
  norm_num

/-- C10.  Called with no polled telemetry (`self.data` falsy, or its
`operating` or `status` section missing), `predict_pellet_depletion`
returns `None` — an outcome distinct from every status dictionary,
in particular from the `insufficient_data` one. -/
theorem C10_theorem :
    (∀ sufficientData : Bool, predictPelletDepletion sufficientData none = none) ∧
    (∀ (sufficientData : Bool) (d : PollData), d.operating = none →
      predictPelletDepletion sufficientData (some d) = none) ∧
    (∀ (sufficientData : Bool) (d : PollData), d.status = none →
      predictPelletDepletion sufficientData (some d) = none) ∧
    (∀ b : Bool, (none : Option PredictOutcome)
        ≠ some (PredictOutcome.insufficientData b)) := by
  refine ⟨fun _ => rfl, ?_, ?_, fun b => by simp⟩
  · intro sd d hop
    simp only [predictPelletDepletion, hop]
  · intro sd d hst
    simp only [predictPelletDepletion, hst]
    cases d.operating <;> rfl

/-- C10 (witness): calling the predictor with `self.data = None` and,
separately, with a `data` dict missing its `status` section, yields
`None`. -/
theorem C10_theorem_witness :
    predictPelletDepletion true none = none ∧
    predictPelletDepletion true (some
      { operating := some { state := "5", substate := "0", heatlevel := 2,
                            boilerTemp := 20, boilerRef := 20, smokeTemp := 100 },
        status := none, consumptionDay := none, pellets := none }) = none := by
  exact ⟨C10_theorem.1 true, C10_theorem.2.2.1 true
    { operating := some { state := "5", substate := "0", heatlevel := 2,
                          boilerTemp := 20, boilerRef := 20, smokeTemp := 100 },
      status := none, consumptionDay := none, pellets := none } rfl⟩

/-- C3 (counterexample).  The claimed invariant is an equivalence:
`_mode_change_started` non-null iff `change_in_progress`.  It fails on
the failure path of `async_set_heatlevel`: starting from the freshly
initialized coordinator, a `set_heatlevel(2)` call whose mode-set
sub-step fails clears `change_in_progress` and the targets but leaves
`_mode_change_started` at the stamped time (here `5`), so the
timestamp is non-null while `change_in_progress` is false. -/
theorem C3_counterexample :
    (setHeatlevel 5 2 false true initialCoordState).1.changeInProgress = false ∧
    (setHeatlevel 5 2 false true initialCoordState).1.modeChangeStarted = some 5 ∧
    some (5 : ℚ) ≠ (none : Option ℚ) := by
  refine ⟨?_, ?_, by simp⟩ <;> norm_num [setHeatlevel, initialCoordState]

/-- C3 (amended).  Only one direction of the claimed invariant holds:
after `async_set_heatlevel`, `async_set_temperature` or
`_check_mode_change_progress`, a true `change_in_progress` still implies
a non-null `_mode_change_started` (assuming the state already satisfied
that direction); the converse fails, because the failed-send paths of
the two setters clear `change_in_progress` and the targets but do not
null out `_mode_change_started`. -/
theorem C3_amended :
    (∀ (now : ℚ) (hl : Int) (mOk vOk : Bool) (s : CoordState),
      (s.changeInProgress = true → s.modeChangeStarted ≠ none) →
      (setHeatlevel now hl mOk vOk s).1.changeInProgress = true →
      (setHeatlevel now hl mOk vOk s).1.modeChangeStarted ≠ none) ∧
    (∀ (now temp : ℚ) (mOk vOk : Bool) (s : CoordState),
      (s.changeInProgress = true → s.modeChangeStarted ≠ none) →
      (setTemperature now temp mOk vOk s).1.changeInProgress = true →
      (setTemperature now temp mOk vOk s).1.modeChangeStarted ≠ none) ∧
    (∀ (cfg : Config) (now : ℚ) (d : PollData) (s : CoordState),
      (s.changeInProgress = true → s.modeChangeStarted ≠ none) →
      (checkModeChangeProgress cfg now d s).1.changeInProgress = true →
      (checkModeChangeProgress cfg now d s).1.modeChangeStarted ≠ none) := by
  refine ⟨?_, ?_, ?_⟩
  · intro now hl mOk vOk s hinv
    unfold setHeatlevel
    split_ifs <;> simp_all
  · intro now temp mOk vOk s hinv
    unfold setTemperature
    split_ifs <;> simp_all
  · intro cfg now d s hinv
    unfold checkModeChangeProgress
    repeat' split
    all_goals try exact hinv
    all_goals try (simp [clearPending]; done)
    all_goals try (simp only [])
    all_goals split_ifs
    all_goals try exact hinv
    all_goals intro h
    all_goals simp_all [clearPending]

/-- C3 (witness for the amended theorem): after a fully successful
`set_heatlevel(2)` issued at time `7` from the initial state,
`change_in_progress` is true and the start timestamp is non-null. -/
theorem C3_amended_witness :
    (setHeatlevel 7 2 true true initialCoordState).1.modeChangeStarted ≠ none := by
  exact C3_amended.1 7 2 true true initialCoordState
    (by norm_num [initialCoordState]) (by norm_num [setHeatlevel, initialCoordState])

/-- C5.  On any poll while a change is pending with both telemetry
sections present, if every non-null target (heatlevel, temperature,
operation mode) matches the polled telemetry, the machine returns to
idle: `change_in_progress` becomes false and all targets, the toggle
flag, the start timestamp and the retry counter are cleared. -/
theorem C5_theorem (cfg : Config) (now : ℚ) (d : PollData) (s : CoordState)
    (op : OperatingData) (st : StatusData)
    (hop : d.operating = some op) (hst : d.status = some st)
    (hcip : s.changeInProgress = true)
    (h1 : matchesTarget op.heatlevel s.targetHeatlevel)
    (h2 : matchesTarget op.boilerRef s.targetTemperature)
    (h3 : matchesTarget st.operationMode s.targetOperationMode) :
    checkModeChangeProgress cfg now d s = (clearPending s, false) ∧
    (clearPending s).changeInProgress = false ∧
    (clearPending s).targetHeatlevel = none ∧
    (clearPending s).targetTemperature = none ∧
    (clearPending s).targetOperationMode = none ∧
    (clearPending s).toggleHeatTarget = false ∧
    (clearPending s).modeChangeStarted = none ∧
    (clearPending s).resendAttempt = 0 := by
  refine ⟨?_, by simp [clearPending], by simp [clearPending], by simp [clearPending],
    by simp [clearPending], by simp [clearPending], by simp [clearPending],
    by simp [clearPending]⟩
  simp only [checkModeChangeProgress, hcip, hop, hst]
  simp [h1, h2, h3]

/-- C5 (witness): `async_set_heatlevel(2)` issued at time `0` with both
sends succeeding, followed by a poll reporting `heatlevel = 2` and
`operation_mode = 0`, clears `change_in_progress` and
`target_heatlevel`. -/
theorem C5_theorem_witness :
    (checkModeChangeProgress
        { shutdownStates := ["13", "14"], startupStates := ["2", "4"],
          cmdTimeout := 30, totalTimeout := 300 } 10
        { operating := some { state := "5", substate := "0", heatlevel := 2,
                              boilerTemp := 20, boilerRef := 20, smokeTemp := 100 },
          status := some { operationMode := 0 },
          consumptionDay := none, pellets := none }
        (setHeatlevel 0 2 true true initialCoordState).1).1.changeInProgress
      = false ∧
    (checkModeChangeProgress
        { shutdownStates := ["13", "14"], startupStates := ["2", "4"],
          cmdTimeout := 30, totalTimeout := 300 } 10
        { operating := some { state := "5", substate := "0", heatlevel := 2,
                              boilerTemp := 20, boilerRef := 20, smokeTemp := 100 },
          status := some { operationMode := 0 },
          consumptionDay := none, pellets := none }
        (setHeatlevel 0 2 true true initialCoordState).1).1.targetHeatlevel
      = none := by
  have h := C5_theorem
      { shutdownStates := ["13", "14"], startupStates := ["2", "4"],
        cmdTimeout := 30, totalTimeout := 300 } 10
      { operating := some { state := "5", substate := "0", heatlevel := 2,
                            boilerTemp := 20, boilerRef := 20, smokeTemp := 100 },
        status := some { operationMode := 0 },
        consumptionDay := none, pellets := none }
      (setHeatlevel 0 2 true true initialCoordState).1
      { state := "5", substate := "0", heatlevel := 2,
        boilerTemp := 20, boilerRef := 20, smokeTemp := 100 }
      { operationMode := 0 } rfl rfl
      (by norm_num [setHeatlevel, initialCoordState])
      (by norm_num [setHeatlevel, initialCoordState, matchesTarget])
      (by norm_num [setHeatlevel, initialCoordState, matchesTarget])
      (by norm_num [setHeatlevel, initialCoordState, matchesTarget])
  rw [h.1]
  exact ⟨h.2.1, h.2.2.1⟩

/-- C6 (counterexample).  The claim demands abandonment whenever the
elapsed time exceeds the total-change timeout.  But with
`cmdTimeout = 30`, `totalTimeout = 300`, a pending unconfirmed change
started at time `0`, retry counter `0` and a poll at time `400`
(elapsed `400 > 300`), the resend branch fires first: the retry counter
is still below the maximum, so the command is resent and
`change_in_progress` stays true instead of being cleared. -/
theorem C6_counterexample :
    (checkModeChangeProgress
        { shutdownStates := ["13", "14"], startupStates := ["2", "4"],
          cmdTimeout := 30, totalTimeout := 300 } 400
        { operating := some { state := "5", substate := "0", heatlevel := 1,
                              boilerTemp := 20, boilerRef := 20, smokeTemp := 100 },
          status := some { operationMode := 0 },
          consumptionDay := none, pellets := none }
        { changeInProgress := true, modeChangeStarted := some 0,
          resendAttempt := 0, targetHeatlevel := some 2,
          targetOperationMode := some 0 }).2 = true ∧
    (checkModeChangeProgress
        { shutdownStates := ["13", "14"], startupStates := ["2", "4"],
          cmdTimeout := 30, totalTimeout := 300 } 400
        { operating := some { state := "5", substate := "0", heatlevel := 1,
                              boilerTemp := 20, boilerRef := 20, smokeTemp := 100 },
          status := some { operationMode := 0 },
          consumptionDay := none, pellets := none }
        { changeInProgress := true, modeChangeStarted := some 0,
          resendAttempt := 0, targetHeatlevel := some 2,
          targetOperationMode := some 0 }).1.changeInProgress = true ∧
    (400 : ℚ) - 0 > 300 := by
  refine ⟨?_, ?_, by norm_num⟩ <;>
    norm_num [checkModeChangeProgress, matchesTarget, maxResendAttempts]

/-- C6 (amended).  A pending unconfirmed change is abandoned only when
its elapsed time exceeds the total-change timeout AND the retry
counter has already reached the maximum (3): then `change_in_progress`
becomes false, all targets and the retry counter are cleared without
raising, and no further resend attempt ever occurs from the abandoned
state (every later poll returns it unchanged with no resend).  While
retries remain, a poll past the total timeout resends instead. -/
theorem C6_amended (cfg : Config) (now : ℚ) (d : PollData) (s : CoordState)
    (op : OperatingData) (st : StatusData) (t0 : ℚ)
    (hop : d.operating = some op) (hst : d.status = some st)
    (hcip : s.changeInProgress = true)
    (hnc : ¬ (matchesTarget op.heatlevel s.targetHeatlevel ∧
        matchesTarget op.boilerRef s.targetTemperature ∧
        matchesTarget st.operationMode s.targetOperationMode))
    (hms : s.modeChangeStarted = some t0)
    (helapsed : now - t0 > cfg.totalTimeout)
    (hmax : maxResendAttempts ≤ s.resendAttempt) :
    checkModeChangeProgress cfg now d s = (clearPending s, false) ∧
    (clearPending s).changeInProgress = false ∧
    (clearPending s).targetHeatlevel = none ∧
    (clearPending s).targetTemperature = none ∧
    (clearPending s).targetOperationMode = none ∧
    (clearPending s).resendAttempt = 0 ∧
    (∀ (cfg' : Config) (now' : ℚ) (d' : PollData),
      checkModeChangeProgress cfg' now' d' (clearPending s)
        = (clearPending s, false)) := by
  have hfinal : ∀ (cfg' : Config) (now' : ℚ) (d' : PollData),
      checkModeChangeProgress cfg' now' d' (clearPending s)
        = (clearPending s, false) := by
    intro cfg' now' d'
    simp [checkModeChangeProgress, clearPending]
  refine ⟨?_, by simp [clearPending], by simp [clearPending], by simp [clearPending],
    by simp [clearPending], by simp [clearPending], hfinal⟩
  have hnr : ¬ (now - t0 > cfg.cmdTimeout ∧ s.resendAttempt < maxResendAttempts) :=
    fun hc => absurd hc.2 (not_lt.mpr hmax)
  simp [checkModeChangeProgress, hcip, hop, hst, hms, hnc, hnr, helapsed]

/-- C6 (witness): with retries exhausted (`resendAttempt = 3`) and a
poll at time `400` against timeouts `30`/`300`, the pending change is
abandoned: cleared state, no resend. -/
theorem C6_amended_witness :
    checkModeChangeProgress
        { shutdownStates := ["13", "14"], startupStates := ["2", "4"],
          cmdTimeout := 30, totalTimeout := 300 } 400
        { operating := some { state := "5", substate := "0", heatlevel := 1,
                              boilerTemp := 20, boilerRef := 20, smokeTemp := 100 },
          status := some { operationMode := 0 },
          consumptionDay := none, pellets := none }
        { changeInProgress := true, modeChangeStarted := some 0,
          resendAttempt := 3, targetHeatlevel := some 2,
          targetOperationMode := some 0 }
      = (clearPending
          { changeInProgress := true, modeChangeStarted := some 0,
            resendAttempt := 3, targetHeatlevel := some 2,
            targetOperationMode := some 0 }, false) := by
  have h := C6_amended
      { shutdownStates := ["13", "14"], startupStates := ["2", "4"],
        cmdTimeout := 30, totalTimeout := 300 } 400
      { operating := some { state := "5", substate := "0", heatlevel := 1,
                            boilerTemp := 20, boilerRef := 20, smokeTemp := 100 },
        status := some { operationMode := 0 },
        consumptionDay := none, pellets := none }
      { changeInProgress := true, modeChangeStarted := some 0,
        resendAttempt := 3, targetHeatlevel := some 2,
        targetOperationMode := some 0 }
      { state := "5", substate := "0", heatlevel := 1,
        boilerTemp := 20, boilerRef := 20, smokeTemp := 100 }
      { operationMode := 0 } 0 rfl rfl rfl
      (by norm_num [matchesTarget]) rfl (by norm_num)
      (by norm_num [maxResendAttempts])
  exact h.1

/-- C2 (counterexample).  While a change is pending
(`change_in_progress = true`, target heatlevel 3), a poll whose
telemetry shows an unrequested heatlevel change (previous 1, polled 2,
heat-level mode) does NOT clear the pending change: external-change
detection only runs when no change is in progress (line 557), so the
pending change survives the poll and `app_change_detected` is false. -/
theorem C2_counterexample :
    (processStateChanges
        { shutdownStates := ["13", "14"], startupStates := ["2", "4"],
          cmdTimeout := 30, totalTimeout := 300 }
        (fun s => (s, false)) 100
        { operating := some { state := "5", substate := "0", heatlevel := 2,
                              boilerTemp := 20, boilerRef := 20, smokeTemp := 100 },
          status := some { operationMode := 0 },
          consumptionDay := none, pellets := none }
        { changeInProgress := true, modeChangeStarted := some 0,
          resendAttempt := 1, targetHeatlevel := some 3,
          targetOperationMode := some 0, prevState := some "5",
          prevHeatlevel := some 1, prevTemperature := some 20,
          prevOperationMode := some 0 }).map
      (fun r => (r.1.changeInProgress, r.1.targetHeatlevel,
                 r.1.resendAttempt, r.2.appChangeDetected))
      = some (true, some 3, 1, some false) := by
  simp [processStateChanges, woodModeTracking, startupTimers]

/-- C2 (amended).  External overrides are only detected while no change
is in progress.  While a change is pending, on any poll that does not
enter a shutdown state and is not in wood mode, telemetry value changes
are NOT flagged as app changes (`app_change_detected` is false) and the
whole pending change — the in-progress flag, the toggle flag, the start
timestamp, the retry counter and all three targets — is preserved
unchanged; the pending state is only ever cleared by confirmation,
timeout or an external stop. -/
theorem C2_amended (cfg : Config) (eff : CoordState → CoordState × Bool)
    (now : ℚ) (d : PollData) (s : CoordState)
    (op : OperatingData) (st : StatusData)
    (hop : d.operating = some op) (hst : d.status = some st)
    (hcip : s.changeInProgress = true)
    (hprevHL : s.prevHeatlevel ≠ none)
    (h9 : op.state ≠ "9")
    (hshut : op.state ∉ cfg.shutdownStates) :
    ∃ s' f, processStateChanges cfg eff now d s = some (s', f) ∧
      f.appChangeDetected = some false ∧
      s'.changeInProgress = true ∧
      s'.toggleHeatTarget = s.toggleHeatTarget ∧
      s'.modeChangeStarted = s.modeChangeStarted ∧
      s'.resendAttempt = s.resendAttempt ∧
      s'.targetHeatlevel = s.targetHeatlevel ∧
      s'.targetTemperature = s.targetTemperature ∧
      s'.targetOperationMode = s.targetOperationMode := by
  have hnr : ¬ (op.state = "9" ∧ s.wasInWoodMode = true) := fun hc => h9 hc.1
  obtain ⟨hf, w1, w2, w3, w4, w5, w6, w7, w8, w9, w10, w11⟩ :=
    woodModeTracking_no_resume cfg eff op st s hnr
  obtain ⟨t1, t2, t3, t4, t5, t6, t7, t8, t9, t10, t11⟩ :=
    startupTimers_fields now op (woodModeTracking cfg eff op st s).1
  simp only [processStateChanges, hop, hst]
  simp only [t1.trans w1, t2.trans w2, t3.trans w3, t4.trans w4, t5.trans w5,
    t6.trans w6, t7.trans w7, t8.trans w8, t9.trans w9, t10.trans w10,
    t11.trans w11, hf]
  rw [if_neg hprevHL, if_neg (fun hc => hshut hc.2.1)]
  simp [hcip, t1.trans w1, t2.trans w2, t3.trans w3, t4.trans w4, t5.trans w5,
    t6.trans w6, t7.trans w7]
  exact ⟨_, _, ⟨rfl, rfl⟩, rfl, rfl, rfl, rfl, rfl, rfl, rfl, rfl⟩

/-- C2 (witness for the amended theorem): the same scenario as the
counterexample — pending change targeting heatlevel 3, telemetry
showing an unrequested 1→2 heatlevel change — preserved unchanged with
`app_change_detected = false`. -/
theorem C2_amended_witness :
    ∃ s' f, processStateChanges
        { shutdownStates := ["13", "14"], startupStates := ["2", "4"],
          cmdTimeout := 30, totalTimeout := 300 }
        (fun s => (s, false)) 100
        { operating := some { state := "5", substate := "0", heatlevel := 2,
                              boilerTemp := 20, boilerRef := 20, smokeTemp := 100 },
          status := some { operationMode := 0 },
          consumptionDay := none, pellets := none }
        { changeInProgress := true, modeChangeStarted := some 0,
          resendAttempt := 1, targetHeatlevel := some 3,
          targetOperationMode := some 0, prevState := some "5",
          prevHeatlevel := some 1, prevTemperature := some 20,
          prevOperationMode := some 0 } = some (s', f) ∧
      f.appChangeDetected = some false ∧
      s'.changeInProgress = true := by
  have h := C2_amended
      { shutdownStates := ["13", "14"], startupStates := ["2", "4"],
        cmdTimeout := 30, totalTimeout := 300 }
      (fun s => (s, false)) 100
      { operating := some { state := "5", substate := "0", heatlevel := 2,
                            boilerTemp := 20, boilerRef := 20, smokeTemp := 100 },
        status := some { operationMode := 0 },
        consumptionDay := none, pellets := none }
      { changeInProgress := true, modeChangeStarted := some 0,
        resendAttempt := 1, targetHeatlevel := some 3,
        targetOperationMode := some 0, prevState := some "5",
        prevHeatlevel := some 1, prevTemperature := some 20,
        prevOperationMode := some 0 }
      { state := "5", substate := "0", heatlevel := 2,
        boilerTemp := 20, boilerRef := 20, smokeTemp := 100 }
      { operationMode := 0 } rfl rfl rfl (by simp) (by simp) (by simp)
  obtain ⟨s', f, heq, hflag, hcip', _⟩ := h
  exact ⟨s', f, heq, hflag, hcip'⟩

/-- C4.  On any poll whose telemetry state enters the shutdown-state
set from a previously seen non-shutdown state (with telemetry history
initialized), every piece of pending state — the in-progress flag,
the toggle flag, the start timestamp, the retry counter and all three
targets — is cleared on that same poll, `auto_stop_detected` is set,
and override detection is suppressed (`app_change_detected` is false).
The hypothesis that a latched wood-mode flag implies the previous
state was `"9"` is an invariant of the poll loop (the flag is only set
while in state `"9"` and cleared on the first poll outside it). -/
theorem C4_theorem (cfg : Config) (eff : CoordState → CoordState × Bool)
    (now : ℚ) (d : PollData) (s : CoordState)
    (op : OperatingData) (st : StatusData) (p : String)
    (hop : d.operating = some op) (hst : d.status = some st)
    (hcip : s.changeInProgress = true)
    (hprevHL : s.prevHeatlevel ≠ none)
    (hprev : s.prevState = some p)
    (hpns : p ∉ cfg.shutdownStates)
    (hss : op.state ∈ cfg.shutdownStates)
    (hwood : s.wasInWoodMode = true → p = "9") :
    ∃ s' f, processStateChanges cfg eff now d s = some (s', f) ∧
      s'.changeInProgress = false ∧
      s'.toggleHeatTarget = false ∧
      s'.modeChangeStarted = none ∧
      s'.resendAttempt = 0 ∧
      s'.targetHeatlevel = none ∧
      s'.targetTemperature = none ∧
      s'.targetOperationMode = none ∧
      f.autoStopDetected = true ∧
      f.appChangeDetected = some false := by
  have hnr : ¬ (op.state = "9" ∧ s.wasInWoodMode = true) := by
    rintro ⟨h9s, hww⟩
    exact hpns ((hwood hww) ▸ (h9s ▸ hss))
  obtain ⟨hf, w1, w2, w3, w4, w5, w6, w7, w8, w9, w10, w11⟩ :=
    woodModeTracking_no_resume cfg eff op st s hnr
  obtain ⟨t1, t2, t3, t4, t5, t6, t7, t8, t9, t10, t11⟩ :=
    startupTimers_fields now op (woodModeTracking cfg eff op st s).1
  simp only [processStateChanges, hop, hst]
  simp only [t1.trans w1, t2.trans w2, t3.trans w3, t4.trans w4, t5.trans w5,
    t6.trans w6, t7.trans w7, t8.trans w8, t9.trans w9, t10.trans w10,
    t11.trans w11, hf, hprev]
  rw [if_neg hprevHL]
  rw [if_pos ⟨by simp, hss, by
    rintro ⟨p', hp', he⟩
    injection he with he'
    exact hpns (he' ▸ hp')⟩]
  simp [clearPending]
  exact ⟨_, _, ⟨rfl, rfl⟩, rfl, rfl, rfl, rfl, rfl, rfl, rfl, rfl, rfl⟩

/-- C4 (witness): a pending heatlevel change interrupted by telemetry
entering shutdown state `"14"` from burning state `"5"` is fully
cleared on that poll, with `auto_stop_detected` set and override
detection suppressed. -/
theorem C4_theorem_witness :
    ∃ s' f, processStateChanges
        { shutdownStates := ["13", "14"], startupStates := ["2", "4"],
          cmdTimeout := 30, totalTimeout := 300 }
        (fun s => (s, false)) 100
        { operating := some { state := "14", substate := "0", heatlevel := 2,
                              boilerTemp := 20, boilerRef := 20, smokeTemp := 100 },
          status := some { operationMode := 0 },
          consumptionDay := none, pellets := none }
        { changeInProgress := true, modeChangeStarted := some 0,
          resendAttempt := 1, targetHeatlevel := some 3,
          targetOperationMode := some 0, prevState := some "5",
          prevHeatlevel := some 1, prevTemperature := some 20,
          prevOperationMode := some 0 } = some (s', f) ∧
      s'.changeInProgress = false ∧
      s'.targetHeatlevel = none ∧
      f.autoStopDetected = true ∧
      f.appChangeDetected = some false := by
  have h := C4_theorem
      { shutdownStates := ["13", "14"], startupStates := ["2", "4"],
        cmdTimeout := 30, totalTimeout := 300 }
      (fun s => (s, false)) 100
      { operating := some { state := "14", substate := "0", heatlevel := 2,
                            boilerTemp := 20, boilerRef := 20, smokeTemp := 100 },
        status := some { operationMode := 0 },
        consumptionDay := none, pellets := none }
      { changeInProgress := true, modeChangeStarted := some 0,
        resendAttempt := 1, targetHeatlevel := some 3,
        targetOperationMode := some 0, prevState := some "5",
        prevHeatlevel := some 1, prevTemperature := some 20,
        prevOperationMode := some 0 }
      { state := "14", substate := "0", heatlevel := 2,
        boilerTemp := 20, boilerRef := 20, smokeTemp := 100 }
      { operationMode := 0 } "5" rfl rfl rfl (by simp) rfl (by simp) (by simp)
      (by simp)
  obtain ⟨s', f, heq, hc, _, _, _, hth, _, _, hstop, happ⟩ := h
  exact ⟨s', f, heq, hc, hth, hstop, happ⟩

/-- C8 (counterexample).  The claimed fallback ladder fails when
`outdoor_temp` is absent: with a table holding entries for
`(heatlevel 2, temp_delta_bucket 1, outdoor 10)` (rate 5) and
`(heatlevel 2, temp_delta_bucket 3, outdoor 10)` (rate 9), the query
`heating_rate(2, 1.0, None)` misses the exact key `(2, 1, None)` and —
because both intermediate fallbacks are guarded by the presence of an
outdoor bucket — skips the `(heatlevel, temp_delta_bucket)` average
(which would be 5) and returns the heatlevel-wide average 7 instead. -/
theorem C8_counterexample :
    getHeatingRate
        [((2, 1, some 10), { count := 1, totalHeatingRate := 5, avgHeatingRate := 5 }),
         ((2, 3, some 10), { count := 1, totalHeatingRate := 9, avgHeatingRate := 9 })]
        2 1 none = 7 ∧
    getHeatingRateSpecLadder
        [((2, 1, some 10), { count := 1, totalHeatingRate := 5, avgHeatingRate := 5 }),
         ((2, 3, some 10), { count := 1, totalHeatingRate := 9, avgHeatingRate := 9 })]
        2 1 none = 5 ∧
    (7 : ℚ) ≠ 5 := by
  refine ⟨?_, ?_, by norm_num⟩ <;>
    norm_num [getHeatingRate, getHeatingRateSpecLadder,
      getHeatingRateSpecLadder.getHeatingRateSpecFallback, lookupAssoc,
      matchesByTempDelta, matchesByOutdoor, matchesByHeatlevel,
      averageHeatingRate, defaultHeatingRate, tempDeltaBucket, pyRound,
      outdoorTempBucket, Option.some_ne_none, List.cons_ne_nil]

/-- C8 (amended).  The claimed ladder (exact key; else average over
`(heatlevel, temp_delta_bucket)`; else average over
`(heatlevel, outdoor_bucket)`; else average over `heatlevel`; else the
fixed default `{1: 0.3, 2: 0.6, 3: 1.0}`) holds exactly as stated when
an outdoor temperature is supplied; when `outdoor_temp` is absent, the
two intermediate fallbacks are skipped: the query returns the exact-key
average if present with `count >= 1`, else the heatlevel-wide average if
any entry shares the heat level, else the default. -/
theorem C8_amended :
    (∀ (tbl : HeatingTable) (hl : Int) (td v : ℚ),
      getHeatingRate tbl hl td (some v) = getHeatingRateSpecLadder tbl hl td (some v)) ∧
    (∀ (tbl : HeatingTable) (hl : Int) (td : ℚ),
      getHeatingRate tbl hl td none =
        (let fallback :=
          if matchesByHeatlevel tbl hl ≠ [] then
            averageHeatingRate (matchesByHeatlevel tbl hl)
          else defaultHeatingRate hl
         match lookupAssoc (hl, tempDeltaBucket td, none) tbl with
         | some o => if 1 ≤ o.count then o.avgHeatingRate else fallback
         | none => fallback)) := by
  constructor
  · intro tbl hl td v
    simp only [getHeatingRate, getHeatingRateSpecLadder,
      getHeatingRateSpecLadder.getHeatingRateSpecFallback, matchesByOutdoor,
      Option.map_some']
  · intro tbl hl td
    simp only [getHeatingRate, Option.map_none']

end Aduro
